import Mathlib

/-!
Shallow embedding of the desktop-wallet client service
(`src/renderer/services/client.js`) and of the peer-system store module
(`src/renderer/store/modules/peer/system.js`).

JavaScript values are modelled explicitly where the code's behaviour
depends on them:
  * an object field that may be absent, `null`, or carry a value is a
    `JField`;
  * a JS number is a `JSNum` (an exact integer or `NaN`; the code under
    study only manipulates integral amounts, so the float regime where
    `String(n)` uses exponential notation is outside the model);
  * a value that may be a string or a number (e.g. `balance`) is a `JSVal`;
  * a possibly-`undefined` number (destructured query fields) is a `JNum`,
    whose arithmetic sends `undefined` and `NaN` to `NaN` as JS does;
  * truthiness of a possibly-absent boolean flag (`data.success`) is
    `jsTruthy`, truthiness of a possibly-absent string is `jsTruthyStr`
    (the empty string is falsy).
Network responses are inputs to the embedded functions: each `await
client.resource(...).x()` becomes a parameter holding the payload the
transport would have resolved with.
-/

/-- A JS object field that is either absent (`undefined`), `null`, or a value. -/
inductive JField (α : Type) where
  | absent
  | null
  | val (a : α)
deriving DecidableEq, Repr

/-- A JS number restricted to the exact regime: an integer or `NaN`. -/
inductive JSNum where
  | int (n : Int)
  | nan
deriving DecidableEq, Repr

/-- A JS value that is a string or a number (the two shapes `balance` takes). -/
inductive JSVal where
  | str (s : String)
  | num (v : JSNum)
deriving DecidableEq, Repr

/-- Truthiness of a possibly-absent boolean flag: only a present `true` is truthy. -/
def jsTruthy (o : Option Bool) : Bool :=
  match o with
  | some b => b
  | none => false

/-- Truthiness of a possibly-absent string: absent and `""` are falsy. -/
def jsTruthyStr (o : Option String) : Bool :=
  match o with
  | some s => !(s == "")
  | none => false

/-- `x !== null` for a `JField`: true for a value and also for `undefined`
(in JS `undefined !== null` holds under strict inequality). -/
def jsStrictNeNull {α : Type} (f : JField α) : Bool :=
  match f with
  | JField.null => false
  | _ => true

/-- Accumulate a maximal decimal-digit run, as `parseInt` does. -/
def parseDigitsLoop (acc : Nat) : List Char → Nat
  | [] => acc
  | c :: cs => if c.isDigit then parseDigitsLoop (acc * 10 + (c.toNat - 48)) cs else acc

/-- Maximal decimal-digit prefix of a character list; `none` when it is empty. -/
def parseDigits : List Char → Option Nat
  | [] => none
  | c :: cs => if c.isDigit then some (parseDigitsLoop (c.toNat - 48) cs) else none

/-- Hex digit test for `parseInt`'s `0x` form. -/
def isHexDigitCh (c : Char) : Bool :=
  c.isDigit || (('a' ≤ c && c ≤ 'f') || ('A' ≤ c && c ≤ 'F'))

/-- Numeric value of a hex digit. -/
def hexDigitVal (c : Char) : Nat :=
  if c.isDigit then c.toNat - 48
  else if 'a' ≤ c && c ≤ 'f' then c.toNat - 87
  else c.toNat - 55

/-- Accumulate a maximal hex-digit run. -/
def parseHexLoop (acc : Nat) : List Char → Nat
  | [] => acc
  | c :: cs => if isHexDigitCh c then parseHexLoop (acc * 16 + hexDigitVal c) cs else acc

/-- Maximal hex-digit prefix; `none` when it is empty. -/
def parseHexDigits : List Char → Option Nat
  | [] => none
  | c :: cs => if isHexDigitCh c then some (parseHexLoop (hexDigitVal c) cs) else none

/-- Unsigned part of `parseInt`: a `0x`/`0X` prefix switches to hex,
otherwise a maximal decimal run is taken. -/
def parseIntUnsigned (cs : List Char) : Option Nat :=
  match cs with
  | c0 :: c1 :: rest =>
    if c0 = '0' && (c1 = 'x' || c1 = 'X') then parseHexDigits rest
    else parseDigits (c0 :: c1 :: rest)
  | _ => parseDigits cs

/-- Sign handling of `parseInt`: one optional `-`/`+` before the unsigned
part; `none` is `NaN`. -/
def jsParseIntSign : List Char → Option Int
  | [] => none
  | c :: rest =>
    if c = '-' then Option.map (fun n : Nat => -(n : Int)) (parseIntUnsigned rest)
    else if c = '+' then Option.map (fun n : Nat => (n : Int)) (parseIntUnsigned rest)
    else Option.map (fun n : Nat => (n : Int)) (parseIntUnsigned (c :: rest))

/-- `parseInt` on a character list: leading whitespace is skipped, one
optional sign is consumed, then the unsigned part; `none` is `NaN`. -/
def jsParseIntChars (cs : List Char) : Option Int :=
  jsParseIntSign (cs.dropWhile Char.isWhitespace)

/-- JS `parseInt` on a string-or-number value, as a `JSNum`.  An integer
number round-trips through its decimal representation unchanged; `NaN`
stringifies to `"NaN"` and parses back to `NaN`. -/
def jsParseInt (v : JSVal) : JSNum :=
  match v with
  | JSVal.str s =>
    match jsParseIntChars s.toList with
    | some n => JSNum.int n
    | none => JSNum.nan
  | JSVal.num (JSNum.int n) => JSNum.int n
  | JSVal.num JSNum.nan => JSNum.nan

/-- Whether a `JSVal` is an integer number (`Number.isInteger`): `NaN` and
strings are not. -/
def isIntegerVal (v : JSVal) : Bool :=
  match v with
  | JSVal.num (JSNum.int _) => true
  | _ => false

/-- A JS number that may also be `undefined` (a destructured field missing
from a supplied query object). -/
inductive JNum where
  | int (n : Int)
  | nan
  | undef
deriving DecidableEq, Repr

/-- JS subtraction on possibly-undefined numbers: `undefined` or `NaN` on
either side yields `NaN`. -/
def jnumSub (a b : JNum) : JNum :=
  match a, b with
  | JNum.int x, JNum.int y => JNum.int (x - y)
  | _, _ => JNum.nan

/-- JS multiplication on possibly-undefined numbers: `undefined` or `NaN`
on either side yields `NaN`. -/
def jnumMul (a b : JNum) : JNum :=
  match a, b with
  | JNum.int x, JNum.int y => JNum.int (x * y)
  | _, _ => JNum.nan

/-- Whether a `JNum` is `NaN`. -/
def jnumIsNaN (a : JNum) : Bool :=
  match a with
  | JNum.nan => true
  | _ => false

/-! ## Connection binding (`ClientService` constructor and accessors) -/

/-- The underlying `ApiClient`: tracks the connection string and version it
was configured with (`setConnection` / `setVersion`). -/
structure ApiClientModel where
  connection : String
  apiVersion : Option Nat
deriving DecidableEq, Repr

/-- `new ApiClient(host)`: the version has not been set. -/
def ApiClientModel.make (host : String) : ApiClientModel :=
  { connection := host, apiVersion := none }

/-- State of a `ClientService` instance: the private `__host` / `__version`
fields and the wrapped `ApiClient`. -/
structure ClientService where
  hostField : Option String
  versionField : Option Nat
  client : ApiClientModel
deriving DecidableEq, Repr

/-- The constructor body: `__host = null`, `__version = null`,
`client = new ApiClient('http://')`. -/
def ClientService.construct : ClientService :=
  { hostField := none, versionField := none, client := ApiClientModel.make "http://" }

/-- `get host ()`. -/
def ClientService.host (s : ClientService) : Option String :=
  s.hostField

/-- `set host (host)`: stores `__host` and reconfigures the transport. -/
def ClientService.setHost (s : ClientService) (h : String) : ClientService :=
  { s with hostField := some h, client := { s.client with connection := h } }

/-- `get version ()`. -/
def ClientService.version (s : ClientService) : Option Nat :=
  s.versionField

/-- `set version (apiVersion)`: stores `__version` and reconfigures the transport. -/
def ClientService.setVersion (s : ClientService) (v : Nat) : ClientService :=
  { s with versionField := some v, client := { s.client with apiVersion := some v } }

/-! ## Profile watcher (`__watchProfile` handler body) -/

/-- A network record as read from `network/byId`. -/
structure NetworkInfo where
  server : String
  apiVersion : Nat
deriving DecidableEq, Repr

/-- A peer as read from `peer/current`. -/
structure PeerInfo where
  ip : String
  port : Nat
  version : String
deriving DecidableEq, Repr

/-- An active profile (only its network id is read). -/
structure ProfileInfo where
  networkId : String
deriving DecidableEq, Repr

/-- The test `currentPeer.version.match(/^2\./)`: whether the version
string begins with the two characters `2.`. -/
def startsWith2Dot (v : String) : Bool :=
  match v.toList with
  | c0 :: c1 :: _ => c0 = '2' && c1 = '.'
  | _ => false

/-- Body of the `store.watch` callback in `__watchProfile`: given the
current service state, the `network/byId` getter, the `peer/current`
getter's result and the observed profile, returns the updated service
state and the list of event names emitted on the event bus. -/
def profileWatchHandler (s : ClientService) (networkById : String → NetworkInfo)
    (currentPeer : Option PeerInfo) (profile : Option ProfileInfo) :
    ClientService × List String :=
  match profile with
  | none => (s, [])
  | some p =>
    let net := networkById p.networkId
    match currentPeer with
    | some peer =>
      let s := s.setHost ("http://" ++ peer.ip ++ ":" ++ toString peer.port)
      let s := s.setVersion (if startsWith2Dot peer.version then 2 else 1)
      (s, ["client:changed"])
    | none =>
      let s := s.setHost net.server
      let s := s.setVersion net.apiVersion
      (s, ["client:changed"])

/-! ## `fetchWallet` -/

/-- The unified wallet object shape: also the shape of a v2
`wallets.get(...).data.data` payload.  Legacy v1-only keys are `JField`s so
that their presence or absence in the result is observable. -/
structure WalletObj where
  address : String
  publicKey : JField String
  secondPublicKey : JField String
  balance : JSVal
  isDelegate : Bool
  username : JField String
  unconfirmedBalance : JField JSVal
  unconfirmedSignature : JField JSVal
  secondSignature : JField JSVal
  multisignatures : JField (List String)
  u_multisignatures : JField (List String)
deriving DecidableEq, Repr

/-- The `account` object of a v1 `accounts.get` payload. -/
structure V1Account where
  address : String
  publicKey : JField String
  secondPublicKey : JField String
  balance : JSVal
  username : JField String
  unconfirmedBalance : JField JSVal
  unconfirmedSignature : JField JSVal
  secondSignature : JField JSVal
  multisignatures : JField (List String)
  u_multisignatures : JField (List String)
deriving DecidableEq, Repr

/-- A v1 `accounts.get` response: the `success` flag (possibly absent) and
the account object. -/
structure V1AccountsResponse where
  success : Option Bool
  account : V1Account
deriving DecidableEq, Repr

/-- The v1 branch body of `fetchWallet`: sets
`isDelegate = (username !== null)` and deletes the five legacy keys. -/
def v1AccountShape (a : V1Account) : WalletObj :=
  { address := a.address
    publicKey := a.publicKey
    secondPublicKey := a.secondPublicKey
    balance := a.balance
    isDelegate := jsStrictNeNull a.username
    username := a.username
    unconfirmedBalance := JField.absent
    unconfirmedSignature := JField.absent
    secondSignature := JField.absent
    multisignatures := JField.absent
    u_multisignatures := JField.absent }

/-- `fetchWallet(address)`: dispatches on the bound version
(`__version === 2` takes the v2 branch, anything else the v1 branch),
shapes the v1 account, and finally parses `balance` with `parseInt`
whenever the intermediate `walletData` is non-null.  The two response
parameters stand for the payloads of the `wallets` and `accounts`
resources; only the one matching the bound version is consulted. -/
def fetchWallet (version : Option Nat) (accountsResp : V1AccountsResponse)
    (walletsResp : WalletObj) : Option WalletObj :=
  let walletData : Option WalletObj :=
    if version = some 2 then
      some walletsResp
    else if jsTruthy accountsResp.success then
      some (v1AccountShape accountsResp.account)
    else
      none
  walletData.map (fun w => { w with balance := JSVal.num (jsParseInt w.balance) })

/-! ## `fetchTransactions` -/

/-- A raw v1 transaction (fields the code reads). -/
structure V1Tx where
  senderId : String
  recipientId : String
  amount : Int
  fee : Int
  timestamp : Int
deriving DecidableEq, Repr

/-- A v1 `transactions.all` response. `count` arrives as a string and is
passed through `parseInt`. -/
structure V1TxResponse where
  success : Option Bool
  transactions : List V1Tx
  count : JSVal
deriving DecidableEq, Repr

/-- A raw v2 transaction; `timestampHuman` is the date value `dayjs`
obtains from the human-readable `timestamp.human` field, in epoch
milliseconds (date parsing itself is an external primitive). -/
structure V2Tx where
  sender : String
  recipient : String
  amount : Int
  fee : Int
  timestampHuman : Int
deriving DecidableEq, Repr

/-- A v2 `wallets.transactions` response (`data.data` and `meta.totalCount`). -/
structure V2TxResponse where
  data2 : List V2Tx
  totalCount : Int
deriving DecidableEq, Repr

/-- A transaction after version-specific extraction, before the uniform
enrichment pass; dates are epoch milliseconds. -/
structure TxMid where
  sender : String
  recipient : String
  amount : Int
  fee : Int
  timestamp : Int
deriving DecidableEq, Repr

/-- A normalized transaction after the enrichment pass. -/
structure TxObj where
  sender : String
  recipient : String
  amount : Int
  fee : Int
  timestamp : Int
  isSender : Bool
  isReceiver : Bool
  totalAmount : Int
deriving DecidableEq, Repr

/-- The enrichment pass of `fetchTransactions`: `isSender`, `isReceiver`
and `totalAmount` computed from the extracted fields and the queried
address only. -/
def enrichTx (address : String) (tx : TxMid) : TxObj :=
  { sender := tx.sender
    recipient := tx.recipient
    amount := tx.amount
    fee := tx.fee
    timestamp := tx.timestamp
    isSender := tx.sender == address
    isReceiver := tx.recipient == address
    totalAmount := tx.amount + tx.fee }

/-- The normalized transaction page `fetchTransactions` returns. -/
structure TxPage where
  transactions : List TxObj
  totalCount : JSNum
deriving DecidableEq, Repr

/-- `fetchTransactions(address, ...)` after the query has been issued:
v1 (`__version === 1`) remaps `senderId`/`recipientId`, rebuilds the
timestamp from the network epoch (`dayjs(epoch).add(ts * 1000)`, i.e.
`epoch + ts * 1000` milliseconds) and parses `count`; the v2 branch parses
the human timestamp and reads `meta.totalCount`; both feed the uniform
enrichment pass. -/
def fetchTransactions (version : Option Nat) (address : String) (epochMs : Int)
    (v1resp : V1TxResponse) (v2resp : V2TxResponse) : TxPage :=
  let extracted : List TxMid × JSNum :=
    if version = some 1 then
      if jsTruthy v1resp.success then
        (v1resp.transactions.map (fun tx =>
          { sender := tx.senderId
            recipient := tx.recipientId
            amount := tx.amount
            fee := tx.fee
            timestamp := epochMs + tx.timestamp * 1000 }),
         jsParseInt v1resp.count)
      else
        ([], JSNum.int 0)
    else
      (v2resp.data2.map (fun tx =>
        { sender := tx.sender
          recipient := tx.recipient
          amount := tx.amount
          fee := tx.fee
          timestamp := tx.timestampHuman }),
       JSNum.int v2resp.totalCount)
  { transactions := extracted.1.map (enrichTx address)
    totalCount := extracted.2 }

/-- The destructured query parameter of `fetchTransactions` with JS
semantics: a field missing from a supplied object is `undefined`. -/
structure TxQueryArg where
  page : JNum
  limit : JNum
  orderBy : Option String
deriving DecidableEq, Repr

/-- The default parameter value `{ page: 0, limit: 50, orderBy: 'timestamp:desc' }`. -/
def defaultTxQuery : TxQueryArg :=
  { page := JNum.int 0, limit := JNum.int 50, orderBy := some "timestamp:desc" }

/-- JS default-parameter resolution: the default object is used only when
the argument itself is omitted (`undefined`); a supplied object is
destructured as-is, with no per-field defaulting. -/
def resolveTxQuery (q : Option TxQueryArg) : TxQueryArg :=
  match q with
  | none => defaultTxQuery
  | some q => q

/-- The query object the v1 branch of `fetchTransactions` sends to
`transactions.all`: `offset = (page - 1) * limit`. -/
structure V1TxQuery where
  recipientId : String
  senderId : String
  orderBy : Option String
  offset : JNum
  limit : JNum
deriving DecidableEq, Repr

/-- Construction of the v1 `transactions.all` query from the destructured
page/limit/orderBy. -/
def v1TransactionsQuery (address : String) (q : TxQueryArg) : V1TxQuery :=
  { recipientId := address
    senderId := address
    orderBy := q.orderBy
    offset := jnumMul (jnumSub q.page (JNum.int 1)) q.limit
    limit := q.limit }

/-! ## `fetchDelegates` and `fetchDelegateForged` -/

/-- A raw v1 delegate record (the fields the remapping reads; the spread
`...delegate` keeps them all in the result). -/
structure V1Delegate where
  username : String
  publicKey : String
  approval : Int
  productivity : Int
  producedblocks : Int
  missedblocks : Int
  rate : Int
deriving DecidableEq, Repr

/-- The nested `production` group of the normalized delegate shape. -/
structure ProductionInfo where
  approval : Int
  productivity : Int
deriving DecidableEq, Repr

/-- The nested `blocks` group of the normalized delegate shape. -/
structure BlocksInfo where
  produced : Int
  missed : Int
deriving DecidableEq, Repr

/-- A delegate in the normalized (v2-equivalent) shape: all the original
fields kept by the spread, plus the nested groups and `rank`. -/
structure DelegateObj where
  username : String
  publicKey : String
  approval : Int
  productivity : Int
  producedblocks : Int
  missedblocks : Int
  rate : Int
  production : ProductionInfo
  blocks : BlocksInfo
  rank : Int
deriving DecidableEq, Repr

/-- A `delegates.all` response; `data2` is the `data.data` field a v2 node
sends, `success`/`delegates` are the v1 fields. -/
structure DelegatesResponse where
  data2 : List DelegateObj
  success : Option Bool
  delegates : List V1Delegate
deriving DecidableEq, Repr

/-- The v1 per-delegate remapping of `fetchDelegates`. -/
def v1DelegateShape (d : V1Delegate) : DelegateObj :=
  { username := d.username
    publicKey := d.publicKey
    approval := d.approval
    productivity := d.productivity
    producedblocks := d.producedblocks
    missedblocks := d.missedblocks
    rate := d.rate
    production := { approval := d.approval, productivity := d.productivity }
    blocks := { produced := d.producedblocks, missed := d.missedblocks }
    rank := d.rate }

/-- `fetchDelegates()`: starts from `[]`; a bound version of 2 takes
`data.data`; otherwise the list is filled only when `data.success` is
truthy. -/
def fetchDelegates (version : Option Nat) (resp : DelegatesResponse) : List DelegateObj :=
  if version = some 2 then
    resp.data2
  else if jsTruthy resp.success then
    resp.delegates.map v1DelegateShape
  else
    []

/-- The cached `forged` group a delegate argument may carry. -/
structure ForgedInfo where
  total : Int
deriving DecidableEq, Repr

/-- The delegate argument of `fetchDelegateForged` (only `forged` and
`publicKey` are read). -/
structure DelegateArg where
  forged : Option ForgedInfo
  publicKey : String
deriving DecidableEq, Repr

/-- A `delegates.forged` response. -/
structure ForgedResponse where
  success : Option Bool
  forged : Int
deriving DecidableEq, Repr

/-- `fetchDelegateForged(delegate)`: short-circuits to the cached
`forged.total`; otherwise returns `data.forged` when `data.success` is
truthy, and `0` in every remaining case. -/
def fetchDelegateForged (delegate : DelegateArg) (resp : ForgedResponse) : Int :=
  match delegate.forged with
  | some f => f.total
  | none =>
    if jsTruthy resp.success then resp.forged
    else 0

/-! ## Peer-system store module (`peer/system.js`) -/

/-- An external peer record handled by the peer-system actions (opaque to
them; only passed around). -/
structure StorePeer where
  ip : String
  port : Nat
deriving DecidableEq, Repr

/-- A dispatch observable from the peer-system actions. -/
inductive PeerAction where
  | peersClear
  | currentClear
  | connectToBest (skipIfCustom : Bool)
  | peersRefresh
  | peerUpdateReq (p : StorePeer)
  | peerCurrentSet (p : StorePeer)
  | logError (msg : String)
deriving DecidableEq, Repr

/-- The `system/clear` action: dispatches `peers/clear`, `current/clear`
and `peers/connectToBest` with `skipIfCustom: false`. -/
def systemClear : List PeerAction :=
  [PeerAction.peersClear, PeerAction.currentClear, PeerAction.connectToBest false]

/-- The `update` action.  `currentPeer` is what the `current/current`
getter returns; `refreshResult` is the outcome of the awaited
`peer/update` dispatch (the only dispatch the source wraps in
`try`/`catch`).  The result is the trace of dispatches performed plus the
action's own outcome: the `catch` block logs and falls back, so every
branch finishes with `Except.ok`. -/
def systemUpdate (currentPeer : Option StorePeer)
    (refreshResult : Except String StorePeer) :
    List PeerAction × Except String Unit :=
  match currentPeer with
  | none =>
    (systemClear ++ [PeerAction.peersRefresh], Except.ok ())
  | some peer =>
    match refreshResult with
    | Except.ok refreshed =>
      ([PeerAction.peerUpdateReq peer, PeerAction.peerCurrentSet refreshed], Except.ok ())
    | Except.error e =>
      ([PeerAction.peerUpdateReq peer, PeerAction.logError e] ++ systemClear
        ++ [PeerAction.peersRefresh], Except.ok ())

/-! ## Transaction builders -/

/-- The asset a draft accumulates, per transaction kind.  For the
second-signature registration the source passes `secondPassphrase`
(possibly `undefined`) to `signatureAsset`. -/
inductive TxAsset where
  | votes (vs : List String)
  | username (u : String)
  | transfer (amount : Int) (recipientId : String) (vendorField : Option String)
  | signature (secondPassphrase : Option String)
deriving DecidableEq, Repr

/-- A primary signing step of the external builder: `sign(passphrase)` or
`signWithWif(wif)`. -/
inductive SignStep where
  | byPassphrase (p : String)
  | byWif (w : String)
deriving DecidableEq, Repr

/-- A transaction draft: the attached asset and the histories of primary
and second signing steps applied to it (the signing primitive itself is
external; the model records which steps were invoked, with what input). -/
structure TxDraft where
  asset : TxAsset
  signSteps : List SignStep
  secondSignSteps : List String
deriving DecidableEq, Repr

/-- A fresh draft for an asset, before any signing. -/
def TxDraft.fresh (a : TxAsset) : TxDraft :=
  { asset := a, signSteps := [], secondSignSteps := [] }

/-- `.sign(passphrase)`. -/
def TxDraft.sign (d : TxDraft) (p : String) : TxDraft :=
  { d with signSteps := d.signSteps ++ [SignStep.byPassphrase p] }

/-- `.signWithWif(wif)`. -/
def TxDraft.signWithWif (d : TxDraft) (w : String) : TxDraft :=
  { d with signSteps := d.signSteps ++ [SignStep.byWif w] }

/-- `.secondSign(secondPassphrase)`. -/
def TxDraft.secondSign (d : TxDraft) (s : String) : TxDraft :=
  { d with secondSignSteps := d.secondSignSteps ++ [s] }

/-- `.getStruct()`: extraction of the finalized structure (modelled as the
draft's accumulated content). -/
def TxDraft.getStruct (d : TxDraft) : TxDraft :=
  d

/-- Arguments of `buildVote`. -/
structure VoteArgs where
  votes : List String
  passphrase : Option String
  secondPassphrase : Option String
  wif : Option String
deriving DecidableEq, Repr

/-- `buildVote`. -/
def buildVote (a : VoteArgs) : TxDraft :=
  let vote := TxDraft.fresh (TxAsset.votes a.votes)
  let vote :=
    if jsTruthyStr a.passphrase then vote.sign (a.passphrase.getD "")
    else if jsTruthyStr a.wif then vote.signWithWif (a.wif.getD "")
    else vote
  let vote :=
    if jsTruthyStr a.secondPassphrase then vote.secondSign (a.secondPassphrase.getD "")
    else vote
  vote.getStruct

/-- Arguments of `buildDelegateRegistration`. -/
structure DelegateRegistrationArgs where
  username : String
  passphrase : Option String
  secondPassphrase : Option String
  wif : Option String
deriving DecidableEq, Repr

/-- `buildDelegateRegistration`. -/
def buildDelegateRegistration (a : DelegateRegistrationArgs) : TxDraft :=
  let reg := TxDraft.fresh (TxAsset.username a.username)
  let reg :=
    if jsTruthyStr a.passphrase then reg.sign (a.passphrase.getD "")
    else if jsTruthyStr a.wif then reg.signWithWif (a.wif.getD "")
    else reg
  let reg :=
    if jsTruthyStr a.secondPassphrase then reg.secondSign (a.secondPassphrase.getD "")
    else reg
  reg.getStruct

/-- Arguments of `buildTransfer`. -/
structure TransferArgs where
  amount : Int
  recipientId : String
  vendorField : Option String
  passphrase : Option String
  secondPassphrase : Option String
  wif : Option String
deriving DecidableEq, Repr

/-- `buildTransfer`. -/
def buildTransfer (a : TransferArgs) : TxDraft :=
  let transfer := TxDraft.fresh (TxAsset.transfer a.amount a.recipientId a.vendorField)
  let transfer :=
    if jsTruthyStr a.passphrase then transfer.sign (a.passphrase.getD "")
    else if jsTruthyStr a.wif then transfer.signWithWif (a.wif.getD "")
    else transfer
  let transfer :=
    if jsTruthyStr a.secondPassphrase then transfer.secondSign (a.secondPassphrase.getD "")
    else transfer
  transfer.getStruct

/-- Arguments of `buildSecondSignatureRegistration`. -/
structure SecondSignatureArgs where
  passphrase : Option String
  secondPassphrase : Option String
  wif : Option String
deriving DecidableEq, Repr

/-- `buildSecondSignatureRegistration`: the second passphrase becomes the
asset, and no `secondSign` step ever runs. -/
def buildSecondSignatureRegistration (a : SecondSignatureArgs) : TxDraft :=
  let reg := TxDraft.fresh (TxAsset.signature a.secondPassphrase)
  let reg :=
    if jsTruthyStr a.passphrase then reg.sign (a.passphrase.getD "")
    else if jsTruthyStr a.wif then reg.signWithWif (a.wif.getD "")
    else reg
  reg.getStruct

/-! ## Claim-side predicates and concrete inputs -/

/-- The claim's reading of "the account carries a username": a username
value is present (neither absent nor `null`). -/
def carriesUsername (f : JField String) : Bool :=
  match f with
  | JField.val _ => true
  | _ => false

/-- Whether a character list heads with `x` or `X` (a hex marker). -/
def hexMarkHead (cs : List Char) : Bool :=
  match cs with
  | c1 :: _ => c1 = 'x' || c1 = 'X'
  | [] => false

/-- Whether a character list starts with a decimal digit that does not open
a `0x`/`0X` hex prefix. -/
def decimalLeading (cs : List Char) : Bool :=
  match cs with
  | [] => false
  | c0 :: rest => c0.isDigit && !(c0 = '0' && hexMarkHead rest)

/-- `decimalLeading` after one optional sign. -/
def decimalSigned : List Char → Bool
  | [] => false
  | c :: rest =>
    if c = '-' then decimalLeading rest
    else if c = '+' then decimalLeading rest
    else decimalLeading (c :: rest)

/-- A balance value `parseInt` is guaranteed to turn into an integer: an
integer number, or a string whose first non-whitespace character (after an
optional sign) is a decimal digit not opening a hex prefix. -/
def decimalBalance (v : JSVal) : Bool :=
  match v with
  | JSVal.num (JSNum.int _) => true
  | JSVal.num JSNum.nan => false
  | JSVal.str s => decimalSigned (s.toList.dropWhile Char.isWhitespace)

/-- The v1 account of the spec's end-to-end scenario, except that the
`username` key is absent altogether. -/
def c1Account : V1Account :=
  { address := "ADDR1"
    publicKey := JField.null
    secondPublicKey := JField.null
    balance := JSVal.str "100"
    username := JField.absent
    unconfirmedBalance := JField.val (JSVal.str "5")
    unconfirmedSignature := JField.val (JSVal.num (JSNum.int 0))
    secondSignature := JField.val (JSVal.num (JSNum.int 0))
    multisignatures := JField.val []
    u_multisignatures := JField.val [] }

/-- A successful v1 `accounts.get` response around `c1Account`. -/
def c1Resp : V1AccountsResponse :=
  { success := some true, account := c1Account }

/-- A v2 wallet payload (unused by the v1 branch under scrutiny). -/
def c1DummyWallet : WalletObj :=
  { address := "D"
    publicKey := JField.null
    secondPublicKey := JField.null
    balance := JSVal.num (JSNum.int 1)
    isDelegate := false
    username := JField.absent
    unconfirmedBalance := JField.absent
    unconfirmedSignature := JField.absent
    secondSignature := JField.absent
    multisignatures := JField.absent
    u_multisignatures := JField.absent }

/-- An aside v1 response for exercising the v2 branch of `fetchWallet`. -/
def c3AcctResp : V1AccountsResponse :=
  { success := some false
    account :=
      { address := "X"
        publicKey := JField.null
        secondPublicKey := JField.null
        balance := JSVal.str "0"
        username := JField.null
        unconfirmedBalance := JField.absent
        unconfirmedSignature := JField.absent
        secondSignature := JField.absent
        multisignatures := JField.absent
        u_multisignatures := JField.absent } }

/-- A v2 wallet whose balance is a non-numeric string: `parseInt` gives `NaN`. -/
def c3Wallet : WalletObj :=
  { address := "DPFP"
    publicKey := JField.null
    secondPublicKey := JField.null
    balance := JSVal.str "abc"
    isDelegate := false
    username := JField.absent
    unconfirmedBalance := JField.absent
    unconfirmedSignature := JField.absent
    secondSignature := JField.absent
    multisignatures := JField.absent
    u_multisignatures := JField.absent }

/-- A v2 wallet whose balance is the decimal string of the spec scenario. -/
def c3GoodWallet : WalletObj :=
  { c3Wallet with balance := JSVal.str "100" }

/-- A one-transaction v2 `wallets.transactions` response. -/
def c2V2Resp : V2TxResponse :=
  { data2 := [{ sender := "A", recipient := "B", amount := 7, fee := 3, timestampHuman := 0 }]
    totalCount := 1 }

/-- An aside v1 transactions response for exercising the v2 branch. -/
def c2V1Resp : V1TxResponse :=
  { success := none, transactions := [], count := JSVal.str "0" }

/-- The transaction `fetchTransactions` returns for `c2V2Resp` queried as
address `A`. -/
def c2Tx : TxObj :=
  { sender := "A", recipient := "B", amount := 7, fee := 3, timestamp := 0
    isSender := true, isReceiver := false, totalAmount := 10 }

/-- A network registry with a single answer, for watcher scenarios. -/
def c6Nets : String → NetworkInfo :=
  fun _ => { server := "http://srv:4003", apiVersion := 2 }

/-- The selected peer of the spec scenario, version `2.1.0`. -/
def c6Peer : PeerInfo :=
  { ip := "1.2.3.4", port := 4003, version := "2.1.0" }

/-- An active profile. -/
def c6Profile : ProfileInfo :=
  { networkId := "ark.mainnet" }

/-- A network registry for the construction-time counterexample. -/
def c5Nets : String → NetworkInfo :=
  fun _ => { server := "s", apiVersion := 1 }

/-- The spec's end-to-end v1 wallet payload: `success:true`, address
`ADDR1`, balance `"100"`, username `"bob"`, legacy keys present. -/
def c1SpecResp : V1AccountsResponse :=
  { success := some true
    account := { c1Account with username := JField.val "bob" } }

/-- A v1 `delegates.all` response with `success:false` and a non-empty
legacy delegate list. -/
def c8Resp : DelegatesResponse :=
  { data2 := []
    success := some false
    delegates := [{ username := "d1", publicKey := "pk1", approval := 1, productivity := 2,
                    producedblocks := 3, missedblocks := 4, rate := 5 }] }

/-- A delegate argument with no cached `forged` group. -/
def c8Delegate : DelegateArg :=
  { forged := none, publicKey := "pk1" }

/-- A `delegates.forged` response with no `success` flag at all. -/
def c8Forged : ForgedResponse :=
  { success := none, forged := 7 }

/-- Vote-build arguments for the signing-discipline witness. -/
def c9Vote : VoteArgs :=
  { votes := ["+pk1"], passphrase := some "p", secondPassphrase := none, wif := none }

/-- Delegate-registration arguments for the signing-discipline witness. -/
def c9DelegateReg : DelegateRegistrationArgs :=
  { username := "bob", passphrase := some "p", secondPassphrase := none, wif := none }

/-- The spec's transfer scenario: amount 100 to `R1` with memo `memo`,
passphrase `p`, no second passphrase, no WIF. -/
def c9Transfer : TransferArgs :=
  { amount := 100, recipientId := "R1", vendorField := some "memo"
    passphrase := some "p", secondPassphrase := none, wif := none }

/-- Second-signature-registration arguments for the signing-discipline witness. -/
def c9SecondSig : SecondSignatureArgs :=
  { passphrase := some "p", secondPassphrase := some "s2", wif := none }

/-- A supplied query object carrying only `page`, as in `{page: 2}`. -/
def c10Query : TxQueryArg :=
  { page := JNum.int 2, limit := JNum.undef, orderBy := none }

/-! ## Helper lemmas -/

/-- A digit-headed character list has a non-empty decimal prefix. -/
theorem parseDigits_isSome_of_digit (c : Char) (cs : List Char) (h : c.isDigit = true) :
    (parseDigits (c :: cs)).isSome = true := by
  simp [parseDigits, h]

/-- A list passing `decimalLeading` has a parsable unsigned part. -/
theorem parseIntUnsigned_isSome_of_decimalLeading (cs : List Char)
    (h : decimalLeading cs = true) : (parseIntUnsigned cs).isSome = true := by
  match cs with
  | [] => simp [decimalLeading] at h
  | [c0] =>
    simp only [decimalLeading, hexMarkHead, Bool.and_eq_true, Bool.not_eq_true'] at h
    exact parseDigits_isSome_of_digit c0 [] h.1
  | c0 :: c1 :: rest =>
    simp only [decimalLeading, hexMarkHead, Bool.and_eq_true, Bool.not_eq_true'] at h
    rw [parseIntUnsigned, if_neg]
    · exact parseDigits_isSome_of_digit c0 (c1 :: rest) h.1
    · simp [h.2]

/-- A list passing `decimalSigned` parses to an integer through the sign step. -/
theorem jsParseIntSign_isSome_of_decimalSigned (ds : List Char)
    (h : decimalSigned ds = true) : (jsParseIntSign ds).isSome = true := by
  match ds with
  | [] => simp [decimalSigned] at h
  | c :: rest =>
    rw [decimalSigned] at h
    rw [jsParseIntSign]
    by_cases hm : c = '-'
    · rw [if_pos hm] at h ⊢
      simp [Option.isSome_map, parseIntUnsigned_isSome_of_decimalLeading rest h]
    · rw [if_neg hm] at h ⊢
      by_cases hp : c = '+'
      · rw [if_pos hp] at h ⊢
        simp [Option.isSome_map, parseIntUnsigned_isSome_of_decimalLeading rest h]
      · rw [if_neg hp] at h ⊢
        simp [Option.isSome_map, parseIntUnsigned_isSome_of_decimalLeading (c :: rest) h]

/-- `parseInt` of a value passing `decimalBalance` is an integer number. -/
theorem jsParseInt_int_of_decimalBalance (v : JSVal) (h : decimalBalance v = true) :
    isIntegerVal (JSVal.num (jsParseInt v)) = true := by
  match v with
  | JSVal.num (JSNum.int n) => rfl
  | JSVal.num JSNum.nan => simp [decimalBalance] at h
  | JSVal.str s =>
    rw [decimalBalance] at h
    rw [jsParseInt, jsParseIntChars]
    obtain ⟨n, hn⟩ := Option.isSome_iff_exists.mp
      (jsParseIntSign_isSome_of_decimalSigned _ h)
    simp only [String.toList] at hn
    simp [hn, isIntegerVal]

/-! ## Claim theorems -/

/-- Claim C1, counterexample: a v1 account payload with `success:true` and
no `username` key at all still yields `isDelegate = true` (JS strict
`undefined !== null` holds), so `isDelegate` is not equivalent to the
account carrying a username. -/
theorem fetchWallet_v1_isDelegate_counterexample :
    (fetchWallet (some 1) c1Resp c1DummyWallet).map WalletObj.isDelegate = some true ∧
    carriesUsername c1Resp.account.username = false := by
  exact ⟨rfl, rfl⟩

/-- Claim C1 (amended): for every v1 account payload with `success` true,
`fetchWallet` returns a wallet whose `isDelegate` is `username !== null`
(so an absent username also yields `true`), and the returned object has
none of the legacy-only keys `unconfirmedBalance`, `unconfirmedSignature`,
`secondSignature`, `multisignatures`, `u_multisignatures`. -/
theorem fetchWallet_v1_shape (resp : V1AccountsResponse) (w2 : WalletObj) (w : WalletObj)
    (hs : jsTruthy resp.success = true)
    (hw : fetchWallet (some 1) resp w2 = some w) :
    w.isDelegate = jsStrictNeNull resp.account.username ∧
    w.unconfirmedBalance = JField.absent ∧
    w.unconfirmedSignature = JField.absent ∧
    w.secondSignature = JField.absent ∧
    w.multisignatures = JField.absent ∧
    w.u_multisignatures = JField.absent ∧
    w.address = resp.account.address := by
  simp only [fetchWallet, show ((some 1 : Option Nat) = some 2) = False by simp, if_false,
    hs, if_true, Option.map_some', Option.some.injEq] at hw
  cases hw
  exact ⟨rfl, rfl, rfl, rfl, rfl, rfl, rfl⟩

/-- Claim C1, witness: the spec's end-to-end payload (username `"bob"`)
instantiates the amended theorem; `isDelegate` comes out `true` and the
legacy keys are gone. -/
theorem fetchWallet_v1_shape_witness :
    ((fetchWallet (some 1) c1SpecResp c1DummyWallet).getD c1DummyWallet).isDelegate = true ∧
    ((fetchWallet (some 1) c1SpecResp c1DummyWallet).getD c1DummyWallet).unconfirmedBalance
      = JField.absent ∧
    ((fetchWallet (some 1) c1SpecResp c1DummyWallet).getD c1DummyWallet).multisignatures
      = JField.absent := by
  have h := fetchWallet_v1_shape c1SpecResp c1DummyWallet
    ((fetchWallet (some 1) c1SpecResp c1DummyWallet).getD c1DummyWallet)
    (by decide) (by decide)
  refine ⟨?_, h.2.1, h.2.2.2.2.1⟩
  rw [h.1]
  decide

/-- Claim C2: every transaction returned by `fetchTransactions`, under
either bound version, satisfies `totalAmount = amount + fee`,
`isSender = (sender == address)` and `isReceiver = (recipient == address)`,
computed from the extracted fields and the queried address only. -/
theorem fetchTransactions_enrichment (version : Option Nat) (address : String)
    (epochMs : Int) (v1resp : V1TxResponse) (v2resp : V2TxResponse) (tx : TxObj)
    (htx : tx ∈ (fetchTransactions version address epochMs v1resp v2resp).transactions) :
    tx.totalAmount = tx.amount + tx.fee ∧
    tx.isSender = (tx.sender == address) ∧
    tx.isReceiver = (tx.recipient == address) := by
  simp only [fetchTransactions] at htx
  rw [List.mem_map] at htx
  obtain ⟨mid, _, rfl⟩ := htx
  exact ⟨rfl, rfl, rfl⟩

/-- Claim C2, witness: a concrete v2 response with one transaction sent by
the queried address. -/
theorem fetchTransactions_enrichment_witness :
    c2Tx.totalAmount = c2Tx.amount + c2Tx.fee ∧
    c2Tx.isSender = (c2Tx.sender == "A") ∧
    c2Tx.isReceiver = (c2Tx.recipient == "A") :=
  fetchTransactions_enrichment (some 2) "A" 0 c2V1Resp c2V2Resp c2Tx (by decide)

/-- Claim C3, counterexample: a v2 wallet payload whose balance is the
string `"abc"` yields a non-null result whose balance is `NaN`, which is
not an integer. -/
theorem fetchWallet_balance_nan_counterexample :
    (fetchWallet (some 2) c3AcctResp c3Wallet).map (fun w => isIntegerVal w.balance)
      = some false := by
  exact rfl

/-- Claim C3 (amended): the balance of a non-null `fetchWallet` result is
an integer under either bound version provided the source balance is an
integer number or a string whose first non-whitespace character, after an
optional sign, is a decimal digit not opening a `0x`/`0X` hex prefix; the
guarantee does not extend to all strings, since some (such as `"abc"`)
parse to `NaN`. -/
theorem fetchWallet_balance_int :
    (∀ (acctResp : V1AccountsResponse) (walletResp : WalletObj) (w : WalletObj),
      decimalBalance walletResp.balance = true →
      fetchWallet (some 2) acctResp walletResp = some w →
      isIntegerVal w.balance = true) ∧
    (∀ (version : Option Nat) (acctResp : V1AccountsResponse) (walletResp : WalletObj)
      (w : WalletObj),
      version ≠ some 2 →
      decimalBalance acctResp.account.balance = true →
      fetchWallet version acctResp walletResp = some w →
      isIntegerVal w.balance = true) := by
  constructor
  · intro acctResp walletResp w hdec hw
    simp only [fetchWallet, if_pos rfl, Option.map_some', Option.some.injEq] at hw
    cases hw
    exact jsParseInt_int_of_decimalBalance _ hdec
  · intro version acctResp walletResp w hv hdec hw
    simp only [fetchWallet, if_neg hv] at hw
    by_cases hs : jsTruthy acctResp.success
    · rw [if_pos hs] at hw
      simp only [Option.map_some', Option.some.injEq] at hw
      cases hw
      exact jsParseInt_int_of_decimalBalance _ hdec
    · rw [if_neg hs] at hw
      simp at hw

/-- Claim C3, witness: the spec scenario balance `"100"` (a decimal
string) instantiates the amended theorem on the v2 branch with an integer
result. -/
theorem fetchWallet_balance_int_witness :
    decimalBalance c3GoodWallet.balance = true ∧
    isIntegerVal ((fetchWallet (some 2) c3AcctResp c3GoodWallet).getD c3Wallet).balance
      = true := by
  refine ⟨by decide, ?_⟩
  exact fetchWallet_balance_int.1 c3AcctResp c3GoodWallet
    ((fetchWallet (some 2) c3AcctResp c3GoodWallet).getD c3Wallet) (by decide) (by decide)

/-- Claim C4: when no current peer exists, the `update` action dispatches
`peers/clear`, `current/clear`, `peers/connectToBest` with
`skipIfCustom:false` and `peers/refresh`; when a refresh of the bound
peer fails, the error is logged and the same clear-and-reconnect sequence
runs; in every case the action finishes normally (no exception escapes). -/
theorem peerSystemUpdate_recovery (cp : Option StorePeer) (r : Except String StorePeer) :
    (cp = none → systemUpdate cp r =
      ([PeerAction.peersClear, PeerAction.currentClear, PeerAction.connectToBest false,
        PeerAction.peersRefresh], Except.ok ())) ∧
    (∀ peer e, cp = some peer → r = Except.error e → systemUpdate cp r =
      ([PeerAction.peerUpdateReq peer, PeerAction.logError e, PeerAction.peersClear,
        PeerAction.currentClear, PeerAction.connectToBest false, PeerAction.peersRefresh],
        Except.ok ())) ∧
    (systemUpdate cp r).2 = Except.ok () := by
  refine ⟨?_, ?_, ?_⟩
  · rintro rfl
    rfl
  · rintro peer e rfl rfl
    rfl
  · cases cp with
    | none => rfl
    | some peer => cases r <;> rfl

/-- Claim C4, witness: with no current peer and a refresh outcome that
would have thrown, the dispatch trace is exactly the clear-and-reconnect
sequence and the action returns normally. -/
theorem peerSystemUpdate_recovery_witness :
    systemUpdate none (Except.error "boom") =
      ([PeerAction.peersClear, PeerAction.currentClear, PeerAction.connectToBest false,
        PeerAction.peersRefresh], Except.ok ()) :=
  (peerSystemUpdate_recovery none (Except.error "boom")).1 rfl

/-- Claim C5, counterexample: immediately after construction the `host`
and `version` accessors return null — only the underlying transport client
received the placeholder `http://` — and a watch event with no active
profile leaves them null. -/
theorem connectionBinding_null_counterexample :
    ClientService.construct.host = none ∧
    ClientService.construct.version = none ∧
    ClientService.construct.client.connection = "http://" ∧
    (profileWatchHandler ClientService.construct c5Nets none none).1.host = none := by
  exact ⟨rfl, rfl, rfl, rfl⟩

/-- Claim C5 (amended): at construction the underlying client is bound to
the placeholder host `http://` while the service's `host`/`version`
accessors read null until first set; after a set, reads return exactly the
bound values and each setter reconfigures the transport. -/
theorem connectionBinding_accessors :
    ClientService.construct.client.connection = "http://" ∧
    ClientService.construct.host = none ∧
    ClientService.construct.version = none ∧
    (∀ (s : ClientService) (h : String),
      (s.setHost h).host = some h ∧ (s.setHost h).client.connection = h ∧
      (s.setHost h).version = s.version) ∧
    (∀ (s : ClientService) (v : Nat),
      (s.setVersion v).version = some v ∧ (s.setVersion v).client.apiVersion = some v ∧
      (s.setVersion v).host = s.host) := by
  refine ⟨rfl, rfl, rfl, ?_, ?_⟩ <;> intro s x <;> exact ⟨rfl, rfl, rfl⟩

/-- Claim C6: on a profile change with an active profile, the watcher
binds the host to the selected peer's ip and port and sets the version to
2 exactly when the peer's version begins with `2.` (else 1); with no
selected peer it binds the profile's network server and apiVersion; in
either case it emits exactly one `client:changed` notification. -/
theorem profileWatcher_binding (s : ClientService) (networkById : String → NetworkInfo)
    (currentPeer : Option PeerInfo) (p : ProfileInfo) :
    (∀ peer, currentPeer = some peer →
      (profileWatchHandler s networkById currentPeer (some p)).1.host =
        some ("http://" ++ peer.ip ++ ":" ++ toString peer.port) ∧
      (profileWatchHandler s networkById currentPeer (some p)).1.version =
        some (if startsWith2Dot peer.version then 2 else 1) ∧
      ((profileWatchHandler s networkById currentPeer (some p)).1.version = some 2 ↔
        startsWith2Dot peer.version = true)) ∧
    (currentPeer = none →
      (profileWatchHandler s networkById currentPeer (some p)).1.host =
        some (networkById p.networkId).server ∧
      (profileWatchHandler s networkById currentPeer (some p)).1.version =
        some (networkById p.networkId).apiVersion) ∧
    (profileWatchHandler s networkById currentPeer (some p)).2 = ["client:changed"] := by
  refine ⟨?_, ?_, ?_⟩
  · rintro peer rfl
    refine ⟨rfl, rfl, ?_⟩
    cases hb : startsWith2Dot peer.version <;>
      simp [profileWatchHandler, ClientService.setHost, ClientService.setVersion,
        ClientService.version, hb]
  · rintro rfl
    exact ⟨rfl, rfl⟩
  · cases currentPeer <;> rfl

/-- Claim C6, witness: with selected peer version `2.1.0` at ip
`1.2.3.4:4003`, the watcher binds `http://1.2.3.4:4003` with version 2 and
emits one `client:changed`. -/
theorem profileWatcher_binding_witness :
    (profileWatchHandler ClientService.construct c6Nets (some c6Peer) (some c6Profile)).1.version
      = some 2 ∧
    (profileWatchHandler ClientService.construct c6Nets (some c6Peer) (some c6Profile)).1.host
      = some "http://1.2.3.4:4003" ∧
    (profileWatchHandler ClientService.construct c6Nets (some c6Peer) (some c6Profile)).2
      = ["client:changed"] := by
  have h := (profileWatcher_binding ClientService.construct c6Nets (some c6Peer) c6Profile).1
    c6Peer rfl
  have he := (profileWatcher_binding ClientService.construct c6Nets (some c6Peer) c6Profile).2.2
  refine ⟨h.2.2.mpr (by decide), ?_, he⟩
  rw [h.1]
  decide

/-- Claim C7: under bound apiVersion 1 with page and limit supplied, the
offset sent by `fetchTransactions` equals `(page - 1) * limit`, so page 0
yields the negative offset `-limit`, preserved as-is. -/
theorem v1TransactionsQuery_offset (address : String) (ob : Option String) (p l : Int) :
    (v1TransactionsQuery address { page := JNum.int p, limit := JNum.int l, orderBy := ob }).offset
      = JNum.int ((p - 1) * l) ∧
    (p = 0 →
      (v1TransactionsQuery address
        { page := JNum.int p, limit := JNum.int l, orderBy := ob }).offset
        = JNum.int (-l)) := by
  constructor
  · rfl
  · rintro rfl
    simp [v1TransactionsQuery, jnumSub, jnumMul]

/-- Claim C7, witness: page 0 with limit 50 sends offset −50. -/
theorem v1TransactionsQuery_offset_witness :
    (v1TransactionsQuery "A" { page := JNum.int 0, limit := JNum.int 50, orderBy := none }).offset
      = JNum.int (-50) :=
  (v1TransactionsQuery_offset "A" none 0 50).2 rfl

/-- Claim C8: a v1 `success:false` response makes `fetchDelegates` return
the empty list, and `fetchDelegateForged` returns 0 whenever no cached
forged total exists and the success flag is not a present `true` (covering
both `success:false` and an absent flag). -/
theorem v1SoftFailure_sentinels (version : Option Nat) (resp : DelegatesResponse)
    (d : DelegateArg) (fr : ForgedResponse) :
    (version ≠ some 2 → jsTruthy resp.success = false → fetchDelegates version resp = []) ∧
    (d.forged = none → jsTruthy fr.success = false → fetchDelegateForged d fr = 0) := by
  constructor
  · intro hv hs
    simp [fetchDelegates, hv, hs]
  · intro hf hs
    simp [fetchDelegateForged, hf, hs]

/-- Claim C8, witness: a `success:false` v1 delegate page with a non-empty
legacy list yields `[]`, and a forged query with no cached total and no
success flag yields 0. -/
theorem v1SoftFailure_sentinels_witness :
    fetchDelegates (some 1) c8Resp = [] ∧ fetchDelegateForged c8Delegate c8Forged = 0 := by
  have h := v1SoftFailure_sentinels (some 1) c8Resp c8Delegate c8Forged
  exact ⟨h.1 (by decide) (by decide), h.2 rfl (by decide)⟩

/-- Claim C9: every build operation applies exactly one primary signing
step — passphrase-based when a passphrase is supplied, else WIF-based when
a WIF is supplied, passphrase taking precedence — and one second-signature
step exactly when a second passphrase is supplied, except that
`buildSecondSignatureRegistration` never applies a second signing step. -/
theorem builders_signing_discipline (va : VoteArgs) (da : DelegateRegistrationArgs)
    (ta : TransferArgs) (sa : SecondSignatureArgs) :
    ((jsTruthyStr va.passphrase = true →
        (buildVote va).signSteps = [SignStep.byPassphrase (va.passphrase.getD "")]) ∧
     (jsTruthyStr va.passphrase = false → jsTruthyStr va.wif = true →
        (buildVote va).signSteps = [SignStep.byWif (va.wif.getD "")]) ∧
     (buildVote va).secondSignSteps =
        (if jsTruthyStr va.secondPassphrase then [va.secondPassphrase.getD ""] else [])) ∧
    ((jsTruthyStr da.passphrase = true →
        (buildDelegateRegistration da).signSteps
          = [SignStep.byPassphrase (da.passphrase.getD "")]) ∧
     (jsTruthyStr da.passphrase = false → jsTruthyStr da.wif = true →
        (buildDelegateRegistration da).signSteps = [SignStep.byWif (da.wif.getD "")]) ∧
     (buildDelegateRegistration da).secondSignSteps =
        (if jsTruthyStr da.secondPassphrase then [da.secondPassphrase.getD ""] else [])) ∧
    ((jsTruthyStr ta.passphrase = true →
        (buildTransfer ta).signSteps = [SignStep.byPassphrase (ta.passphrase.getD "")]) ∧
     (jsTruthyStr ta.passphrase = false → jsTruthyStr ta.wif = true →
        (buildTransfer ta).signSteps = [SignStep.byWif (ta.wif.getD "")]) ∧
     (buildTransfer ta).secondSignSteps =
        (if jsTruthyStr ta.secondPassphrase then [ta.secondPassphrase.getD ""] else [])) ∧
    ((jsTruthyStr sa.passphrase = true →
        (buildSecondSignatureRegistration sa).signSteps
          = [SignStep.byPassphrase (sa.passphrase.getD "")]) ∧
     (jsTruthyStr sa.passphrase = false → jsTruthyStr sa.wif = true →
        (buildSecondSignatureRegistration sa).signSteps
          = [SignStep.byWif (sa.wif.getD "")]) ∧
     (buildSecondSignatureRegistration sa).secondSignSteps = []) := by
  refine ⟨⟨?_, ?_, ?_⟩, ⟨?_, ?_, ?_⟩, ⟨?_, ?_, ?_⟩, ⟨?_, ?_, ?_⟩⟩
  · intro hp
    simp [buildVote, TxDraft.fresh, TxDraft.getStruct, TxDraft.sign, TxDraft.signWithWif,
      TxDraft.secondSign, hp]
    split_ifs <;> rfl
  · intro hp hwif
    simp [buildVote, TxDraft.fresh, TxDraft.getStruct, TxDraft.sign, TxDraft.signWithWif,
      TxDraft.secondSign, hp, hwif]
    split_ifs <;> rfl
  · simp [buildVote, TxDraft.fresh, TxDraft.getStruct, TxDraft.sign, TxDraft.signWithWif,
      TxDraft.secondSign]
    split_ifs <;> rfl
  · intro hp
    simp [buildDelegateRegistration, TxDraft.fresh, TxDraft.getStruct, TxDraft.sign,
      TxDraft.signWithWif, TxDraft.secondSign, hp]
    split_ifs <;> rfl
  · intro hp hwif
    simp [buildDelegateRegistration, TxDraft.fresh, TxDraft.getStruct, TxDraft.sign,
      TxDraft.signWithWif, TxDraft.secondSign, hp, hwif]
    split_ifs <;> rfl
  · simp [buildDelegateRegistration, TxDraft.fresh, TxDraft.getStruct, TxDraft.sign,
      TxDraft.signWithWif, TxDraft.secondSign]
    split_ifs <;> rfl
  · intro hp
    simp [buildTransfer, TxDraft.fresh, TxDraft.getStruct, TxDraft.sign, TxDraft.signWithWif,
      TxDraft.secondSign, hp]
    split_ifs <;> rfl
  · intro hp hwif
    simp [buildTransfer, TxDraft.fresh, TxDraft.getStruct, TxDraft.sign, TxDraft.signWithWif,
      TxDraft.secondSign, hp, hwif]
    split_ifs <;> rfl
  · simp [buildTransfer, TxDraft.fresh, TxDraft.getStruct, TxDraft.sign, TxDraft.signWithWif,
      TxDraft.secondSign]
    split_ifs <;> rfl
  · intro hp
    simp [buildSecondSignatureRegistration, TxDraft.fresh, TxDraft.getStruct, TxDraft.sign,
      TxDraft.signWithWif, hp]
  · intro hp hwif
    simp [buildSecondSignatureRegistration, TxDraft.fresh, TxDraft.getStruct, TxDraft.sign,
      TxDraft.signWithWif, hp, hwif]
  · simp [buildSecondSignatureRegistration, TxDraft.fresh, TxDraft.getStruct, TxDraft.sign,
      TxDraft.signWithWif]
    split_ifs <;> rfl

/-- Claim C9, witness: the spec's transfer scenario (passphrase `p`, no
second passphrase) produces exactly one passphrase signing step and no
second signature. -/
theorem builders_signing_discipline_witness :
    (buildTransfer c9Transfer).signSteps = [SignStep.byPassphrase "p"] ∧
    (buildTransfer c9Transfer).secondSignSteps = [] := by
  have h := builders_signing_discipline c9Vote c9DelegateReg c9Transfer c9SecondSig
  constructor
  · exact h.2.2.1.1 (by decide)
  · have h2 := h.2.2.1.2.2
    rw [h2]
    decide

/-- Claim C10: the documented query defaults are not applied field by
field — a supplied query object is destructured as-is, the default object
is used only when the argument is omitted entirely, and `{page: 2}` sends
`limit`/`orderBy` undefined so the v1 offset `(page - 1) * limit` is `NaN`. -/
theorem txQuery_no_fieldwise_defaults :
    (∀ q : TxQueryArg, resolveTxQuery (some q) = q) ∧
    resolveTxQuery none = defaultTxQuery ∧
    (resolveTxQuery (some c10Query)).limit = JNum.undef ∧
    (resolveTxQuery (some c10Query)).orderBy = none ∧
    jnumIsNaN (v1TransactionsQuery "A" (resolveTxQuery (some c10Query))).offset = true := by
  exact ⟨fun q => rfl, rfl, rfl, rfl, rfl⟩
